import Mathlib

/-!
Verification of the ansible-custom-modules repository (two Ansible modules:
`library/boto3_generic.py`, a generic boto3 passthrough, and
`library/ec2_vpc_eigw.py`, an egress-only internet gateway reconciler).

The Python source is shallowly embedded: dictionaries become association
lists over an inductive `Val` type, the boto3 client and botocore session
become explicit function-valued parameters, `module.fail_json` /
`module.exit_json` / uncaught exceptions become constructors of an outcome
type, and `time.sleep` is recorded in a trace of slept durations.
-/

/-! ## Character classes and the `camel_to_snake` transform

`boto3_generic.camel_to_snake` applies two `re.sub` passes and `.lower()`:

    first_cap_re = re.compile('(.)([A-Z][a-z]+)')
    all_cap_re = re.compile('([a-z0-9])([A-Z])')
    s1 = first_cap_re.sub(r'\1_\2', name)
    return all_cap_re.sub(r'\1_\2', s1).lower()

The character classes `[A-Z]`, `[a-z]`, `[0-9]` are ASCII ranges and `.`
matches any character except a newline.  `str.lower` is modelled on the
ASCII range (the only range the regexes interact with). -/

def isUpperAZ (c : Char) : Bool := 65 ≤ c.toNat && c.toNat ≤ 90

def isLowerAZ (c : Char) : Bool := 97 ≤ c.toNat && c.toNat ≤ 122

def isDigit09 (c : Char) : Bool := 48 ≤ c.toNat && c.toNat ≤ 57

/-- ASCII model of Python `str.lower` applied per character. -/
def lowerChar (c : Char) : Char :=
  if isUpperAZ c then Char.ofNat (c.toNat + 32) else c

/-- Left-to-right non-overlapping substitution for `(.)([A-Z][a-z]+)` with
replacement `\1_\2`.  The `Bool` flag is true while the scan position is
inside the greedy `[a-z]+` run of the match just emitted (those characters
were consumed by the match, so no new match may start on them); when the
run ends, scanning resumes at the first unconsumed character. -/
def sub1go : Bool → List Char → List Char
  | _, [] => []
  | _, [c] => [c]
  | _, [c, u] => [c, u]
  | inRun, c :: u :: l :: rest3 =>
    if inRun && isLowerAZ c then
      c :: sub1go true (u :: l :: rest3)
    else if c = '\n' then
      c :: sub1go false (u :: l :: rest3)
    else if isUpperAZ u && isLowerAZ l then
      c :: '_' :: u :: l :: sub1go true rest3
    else
      c :: sub1go false (u :: l :: rest3)

/-- The full first substitution pass (`first_cap_re.sub`). -/
def sub1 (l : List Char) : List Char := sub1go false l

/-- Left-to-right non-overlapping substitution for `([a-z0-9])([A-Z])` with
replacement `\1_\2`; after a match the scan resumes after the capital. -/
def sub2 : List Char → List Char
  | [] => []
  | [c] => [c]
  | c :: u :: rest2 =>
    if (isLowerAZ c || isDigit09 c) && isUpperAZ u then
      c :: '_' :: u :: sub2 rest2
    else
      c :: sub2 (u :: rest2)

/-- Embedding of `boto3_generic.camel_to_snake`. -/
def camel_to_snake (name : String) : String :=
  ⟨(sub2 (sub1 name.data)).map lowerChar⟩

example : camel_to_snake "DescribeVpcs" = "describe_vpcs" := by decide
example : camel_to_snake "VPCId" = "vpc_id" := by decide
example : camel_to_snake "EgressOnlyInternetGatewayId" = "egress_only_internet_gateway_id" := by
  decide
example : camel_to_snake "describe_vpcs" = "describe_vpcs" := by decide

/-! ## Values, dictionaries and Python truthiness -/

/-- Python values as they appear in module parameters and boto3 responses:
dictionaries are association lists in insertion order. -/
inductive Val where
  | vnone
  | vbool (b : Bool)
  | vint (n : Int)
  | vstr (s : String)
  | vlist (items : List Val)
  | vdict (fields : List (String × Val))

/-- `d.get(k)` on a dictionary: value of the first binding of `k`, if any. -/
def dictGet (d : List (String × Val)) (k : String) : Option Val :=
  (d.find? (fun kv => kv.1 = k)).map Prod.snd

/-- `d[k] = v` on a dictionary: replace the binding in place, else append. -/
def dictSet (d : List (String × Val)) (k : String) (v : Val) : List (String × Val) :=
  if (d.find? (fun kv => kv.1 = k)).isSome then
    d.map (fun kv => if kv.1 = k then (k, v) else kv)
  else
    d ++ [(k, v)]

/-- Python truthiness of a value (`if args.get('Filters'):`). -/
def pyTruthy : Val → Bool
  | .vnone => false
  | .vbool b => b
  | .vint n => n != 0
  | .vstr s => s ≠ ""
  | .vlist items => !items.isEmpty
  | .vdict fields => !fields.isEmpty

/-- Python truthiness of an optional string (`if eigw_id:` where the value
is a gateway id or `None`). -/
def pyTruthyOptStr : Option String → Bool
  | none => false
  | some s => s ≠ ""

/-! ## External boto3/botocore interfaces

The boto3 client, the botocore session and the two ansible helpers
(`camel_dict_to_snake_dict`, `ansible_dict_to_boto3_filter_list`) are
external library code, not part of this repository; they enter the
embedding as explicit function-valued parameters. -/

/-- A `botocore.exceptions.ClientError`: a message and the structured
`err.response` payload. -/
structure ClientErr where
  message : String
  response : Val

/-- The input shape of one operation in a botocore service model:
declared member names and the subset of required member names. -/
structure OperationModel where
  members : List String
  required_members : List String

/-- A botocore service model: its operation names (in the PascalCase form
botocore declares) and the input shape of each operation. -/
structure ServiceModel where
  operation_names : List String
  operation_model : String → OperationModel

/-- The parts of a `botocore.session.Session` that `validate_params`
consults. -/
structure BotoSession where
  available_services : List String
  get_service_model : String → ServiceModel

/-! ## boto3_generic.py -/

/-- Failure raised through `module.fail_json` by `validate_params`, kept
structured (the Python code formats the key list into the message with
`", ".join`). -/
inductive VErr where
  | invalidService (service : String)
  | invalidOperation (operation_name service : String)
  | invalidArguments (keys : List String) (operation_name : String)
  | missingArguments (keys : List String) (operation_name : String)
  | keyError (k : String)
deriving DecidableEq

/-- The keys of an argument dictionary. -/
def keysOf (args : List (String × Val)) : List String := args.map Prod.fst

/-- Embedding of `boto3_generic.validate_params`.  `args.pop('DryRun')`
raises a `KeyError` when the key is absent (the caller `main` always sets
it first). -/
def validate_params (session : BotoSession) (service operation_name : String)
    (args : List (String × Val)) : Except VErr (List (String × Val)) :=
  if service ∉ session.available_services then
    .error (.invalidService service)
  else
    let service_model := session.get_service_model service
    if operation_name ∉ service_model.operation_names then
      .error (.invalidOperation operation_name service)
    else
      let op_model := service_model.operation_model operation_name
      match (if "DryRun" ∈ op_model.members then some args
             else if "DryRun" ∈ keysOf args then
               some (args.filter (fun kv => kv.1 ≠ "DryRun"))
             else none) with
      | none => .error (.keyError "DryRun")
      | some args2 =>
        let bad_params := (keysOf args2).filter (fun k => k ∉ op_model.members)
        if bad_params ≠ [] then
          .error (.invalidArguments bad_params operation_name)
        else
          let missing_params :=
            op_model.required_members.filter (fun k => k ∉ keysOf args2)
          if missing_params ≠ [] then
            .error (.missingArguments missing_params operation_name)
          else
            .ok args2

/-- The `err.response.get('Error').get('Code') == "DryRunOperation"` test
shared by all three `ClientError` handlers of the two modules: `.error`
when `err.response` has no `Error` dict, so the chained `.get` raises an
`AttributeError`. -/
def isDryRunErr (response : Val) : Except String Bool :=
  match response with
  | .vdict fields =>
    match dictGet fields "Error" with
    | some (.vdict errFields) =>
      match dictGet errFields "Code" with
      | some (.vstr code) => .ok (code = "DryRunOperation")
      | _ => .ok false
    | _ => .error "AttributeError"
  | _ => .error "AttributeError"

/-- Embedding of `boto3_generic.call_boto3_operation`.  `conn` is the
boto3 client method dispatch (`getattr(conn, operation_name)(**args)`),
`snake` the external `camel_dict_to_snake_dict`. -/
def call_boto3_operation (snake : Val → Val)
    (conn : String → List (String × Val) → Except ClientErr Val)
    (operation_name : String) (args : List (String × Val)) :
    Except String Val :=
  match conn operation_name args with
  | .ok response => .ok (snake response)
  | .error err =>
    match isDryRunErr err.response with
    | .error m => .error m
    | .ok true => .ok (.vdict [("changed", .vbool true)])
    | .ok false => .ok (snake err.response)

/-- Outcome of one run of `boto3_generic.main`. -/
inductive GenericOutcome where
  | exitJson (result : List (String × Val))
  | failJson (e : VErr)
  | raised (msg : String)

/-- Embedding of `boto3_generic.main` from argument parsing onward:
`arguments` is the parsed `arguments` module parameter, `check_mode` the
host's check-mode flag, `filtX` the external
`ansible_dict_to_boto3_filter_list` (applied when a truthy `Filters`
argument is present).  The connection-type parameter only selects how the
external client is built and is absorbed into `conn`. -/
def generic_main (snake filtX : Val → Val) (session : BotoSession)
    (conn : String → List (String × Val) → Except ClientErr Val)
    (check_mode : Bool) (service operation_name : String)
    (arguments : List (String × Val)) : GenericOutcome :=
  let args := dictSet arguments "DryRun" (.vbool check_mode)
  let args := match dictGet args "Filters" with
              | some v => if pyTruthy v then dictSet args "Filters" (filtX v) else args
              | none => args
  match validate_params session service operation_name args with
  | .error e => .failJson e
  | .ok args2 =>
    match call_boto3_operation snake conn (camel_to_snake operation_name) args2 with
    | .error m => .raised m
    | .ok response => .exitJson [("changed", .vbool false), ("response", response)]

/-! ## ec2_vpc_eigw.py -/

/-- One entry of a gateway's `Attachments` list. -/
structure Attachment where
  State : String
  VpcId : String
deriving DecidableEq

/-- An `EgressOnlyInternetGateway` object as returned by the EC2 API. -/
structure Gateway where
  EgressOnlyInternetGatewayId : String
  Attachments : List Attachment
deriving DecidableEq

/-- Response of `delete_egress_only_internet_gateway`. -/
structure DeleteResponse where
  ReturnCode : Bool
deriving DecidableEq

/-- The boto3 EC2 client operations used by the module.  Each is a
function of its call arguments; the describe-by-ids operation used by the
create poll additionally takes the index of the poll attempt, so the
provider may answer differently as time passes. -/
structure Ec2Client where
  create_egress_only_internet_gateway : Bool → String → Except ClientErr Gateway
  delete_egress_only_internet_gateway : Bool → String → Except ClientErr DeleteResponse
  describe_egress_only_internet_gateways : Except ClientErr (List Gateway)
  describe_egress_only_internet_gateways_by_ids : Nat → String → Except ClientErr (List Gateway)

/-- A provider mutation call issued by the module (create or delete),
with its `DryRun` flag and target. -/
inductive ProviderCall where
  | create (dryRun : Bool) (vpc_id : String)
  | delete (dryRun : Bool) (eigw_id : String)
deriving DecidableEq

/-- Outcome of a module helper: a returned dictionary, `module.fail_json`
(message plus the keyword payload splatted into it), the Python `None`
an exhausted create poll falls through to, or an uncaught exception. -/
inductive ModuleOutcome (α : Type) where
  | done (r : α)
  | failJson (msg : String) (payload : Val)
  | returnedNone
  | raised (msg : String)

/-- Embedding of `ec2_vpc_eigw.delete_eigw`; besides the outcome it
reports the provider mutation calls issued and the durations slept. -/
def delete_eigw (snake : Val → Val) (client : Ec2Client) (check_mode : Bool)
    (eigw_id : String) :
    ModuleOutcome (List (String × Val)) × List ProviderCall × List Nat :=
  match client.delete_egress_only_internet_gateway check_mode eigw_id with
  | .error err =>
    (match isDryRunErr err.response with
     | .error m => .raised m
     | .ok true => .done [("changed", .vbool true), ("gateway_id", .vnone)]
     | .ok false => .failJson err.message (snake err.response),
     [.delete check_mode eigw_id], [])
  | .ok response =>
    (.done [("changed", .vbool response.ReturnCode)], [.delete check_mode eigw_id], [])

/-- The retry loop of `ec2_vpc_eigw.create_eigw`: arguments are the
remaining `retries`, the current `pause`, and the index of the next poll
attempt; the slept durations are returned alongside the outcome. -/
def create_poll (snake : Val → Val) (client : Ec2Client) (gid : String) :
    Nat → Nat → Nat → ModuleOutcome (List (String × Val)) × List Nat
  | 0, _, _ => (.returnedNone, [])
  | retries + 1, pause, k =>
    match client.describe_egress_only_internet_gateways_by_ids k gid with
    | .error err => (.failJson err.message (snake err.response), [pause])
    | .ok gws =>
      match gws.head? with
      | none => (.raised "IndexError", [pause])
      | some g =>
        match g.Attachments.head? with
        | none => (.raised "IndexError", [pause])
        | some att =>
          if att.State = "attached" then
            (.done [("changed", .vbool true), ("gateway_id", .vstr gid)], [pause])
          else
            let next := create_poll snake client gid retries (pause * 2) (k + 1)
            (next.1, pause :: next.2)

/-- Embedding of `ec2_vpc_eigw.create_eigw`. -/
def create_eigw (snake : Val → Val) (client : Ec2Client) (check_mode : Bool)
    (vpc_id : String) :
    ModuleOutcome (List (String × Val)) × List ProviderCall × List Nat :=
  match client.create_egress_only_internet_gateway check_mode vpc_id with
  | .error err =>
    (match isDryRunErr err.response with
     | .error m => .raised m
     | .ok true => .done [("changed", .vbool true), ("gateway_id", .vnone)]
     | .ok false => .failJson err.message (snake err.response),
     [.create check_mode vpc_id], [])
  | .ok eigw =>
    match eigw.Attachments.head? with
    | none => (.raised "IndexError", [.create check_mode vpc_id], [])
    | some att =>
      if att.State = "attached" then
        (.done [("changed", .vbool true),
                ("gateway_id", .vstr eigw.EgressOnlyInternetGatewayId)],
         [.create check_mode vpc_id], [])
      else if att.State = "attaching" then
        let polled := create_poll snake client eigw.EgressOnlyInternetGatewayId 5 1 0
        (polled.1, [.create check_mode vpc_id], polled.2)
      else
        (.failJson ("Unable to create and attach Egress Only Internet Gateway to VPCId: "
            ++ vpc_id ++ ". Bad Attachment State: " ++ att.State) .vnone,
         [.create check_mode vpc_id], [])

/-- Embedding of `ec2_vpc_eigw.describe_eigws`: lists all gateways and
returns an identifier or `None`.  The `for` loop returns on its first
iteration in both branches, so only the first gateway is examined. -/
def describe_eigws (snake : Val → Val) (client : Ec2Client) (vpc_id : String) :
    ModuleOutcome (Option String) :=
  match client.describe_egress_only_internet_gateways with
  | .error err => .failJson err.message (snake err.response)
  | .ok gws =>
    match gws with
    | [] => .done none
    | eigw :: _ =>
      match eigw.Attachments.head? with
      | none => .raised "IndexError"
      | some att =>
        if att.VpcId = vpc_id ∧ (att.State = "attached" ∨ att.State = "attaching") then
          .done (some eigw.EgressOnlyInternetGatewayId)
        else
          .done none

/-- Embedding of `ec2_vpc_eigw.main` from parameter parsing onward.
`module.exit_json(**result)` with the `None` an exhausted poll returns
raises a `TypeError`. -/
def main_eigw (snake : Val → Val) (client : Ec2Client) (check_mode : Bool)
    (vpc_id state : String) :
    ModuleOutcome (List (String × Val)) × List ProviderCall × List Nat :=
  match describe_eigws snake client vpc_id with
  | .failJson m p => (.failJson m p, [], [])
  | .raised m => (.raised m, [], [])
  | .returnedNone => (.raised "TypeError", [], [])
  | .done eigw_id =>
    let branch :=
      if state = "present" && !pyTruthyOptStr eigw_id then
        some (create_eigw snake client check_mode vpc_id)
      else if state = "absent" && pyTruthyOptStr eigw_id then
        some (delete_eigw snake client check_mode (eigw_id.getD ""))
      else
        none
    match branch with
    | some (o, calls, sleeps) =>
      (match o with
       | .returnedNone => .raised "TypeError"
       | o => o, calls, sleeps)
    | none =>
      (.done [("changed", .vbool false),
              ("gateway_id", match eigw_id with
                             | some s => .vstr s
                             | none => .vnone)], [], [])

/-- The attachment state the create poll observes at attempt `k`:
`check_resp['EgressOnlyInternetGateways'][0]['Attachments'][0]['State']`,
or `none` when the call errors or the lists are empty. -/
def polledState (client : Ec2Client) (gid : String) (k : Nat) : Option String :=
  match client.describe_egress_only_internet_gateways_by_ids k gid with
  | .error _ => none
  | .ok gws =>
    match gws.head? with
    | none => none
    | some g =>
      match g.Attachments.head? with
      | none => none
      | some att => some att.State

/-! ## Spec-side helpers and concrete instances -/

/-- The argument dictionary after the `DryRun` handling step of
`validate_params`: kept as-is when the operation's shape declares
`DryRun`, otherwise the `DryRun` pseudo-argument is dropped. -/
def dropUndeclaredDryRun (members : List String) (args : List (String × Val)) :
    List (String × Val) :=
  if "DryRun" ∈ members then args else args.filter (fun kv => kv.1 ≠ "DryRun")

/-- Identity on values, used where the external `camel_dict_to_snake_dict`
or `ansible_dict_to_boto3_filter_list` is irrelevant to a concrete run. -/
def idVal : Val → Val := fun v => v

/-- A botocore session model with one service (`ec2`) offering the single
operation `DescribeVpcs` whose input shape declares the optional members
`DryRun` and `VpcIds`. -/
def sessEc2 : BotoSession :=
  { available_services := ["ec2"]
    get_service_model := fun _ =>
      { operation_names := ["DescribeVpcs"]
        operation_model := fun _ =>
          { members := ["DryRun", "VpcIds"], required_members := [] } } }

/-- A session model whose one operation (`RunThings`) has a required
member `Needed` besides the optional `DryRun`. -/
def sessReq : BotoSession :=
  { available_services := ["ec2"]
    get_service_model := fun _ =>
      { operation_names := ["RunThings"]
        operation_model := fun _ =>
          { members := ["DryRun", "Needed", "Extra"], required_members := ["Needed"] } } }

/-- A gateway attached to a different VPC than the one under
reconciliation. -/
def gwOther : Gateway := ⟨"eigw-other", [⟨"attached", "vpc-other"⟩]⟩

/-- A gateway attached to `vpc-1`, the VPC under reconciliation. -/
def gwMatching : Gateway := ⟨"eigw-match", [⟨"attached", "vpc-1"⟩]⟩

/-- A freshly created gateway whose attachment is already `attached`. -/
def gwAttachedNew : Gateway := ⟨"eigw-new", [⟨"attached", "vpc-1"⟩]⟩

/-- A freshly created gateway whose attachment is still `attaching`. -/
def gwAttachingNew : Gateway := ⟨"eigw-new", [⟨"attaching", "vpc-1"⟩]⟩

/-- The provider's listing with the non-matching gateway first and the
matching one second. -/
def gwsShadowed : List Gateway := [gwOther, gwMatching]

/-- A placeholder client error for operations a concrete scenario never
reaches. -/
def unusedErr : ClientErr := ⟨"unused", .vnone⟩

/-- A `ClientError` response carrying the dry-run success code. -/
def dryRunResponse : Val :=
  .vdict [("Error", .vdict [("Code", .vstr "DryRunOperation")])]

/-- Client whose listing has a matching gateway only in second position. -/
def clientShadowed : Ec2Client :=
  { create_egress_only_internet_gateway := fun _ _ => .error unusedErr
    delete_egress_only_internet_gateway := fun _ _ => .error unusedErr
    describe_egress_only_internet_gateways := .ok gwsShadowed
    describe_egress_only_internet_gateways_by_ids := fun _ _ => .ok [] }

/-- Client whose listing already holds the matching gateway. -/
def clientExisting : Ec2Client :=
  { create_egress_only_internet_gateway := fun _ _ => .error unusedErr
    delete_egress_only_internet_gateway := fun _ _ => .ok ⟨true⟩
    describe_egress_only_internet_gateways := .ok [gwMatching]
    describe_egress_only_internet_gateways_by_ids := fun _ _ => .ok [] }

/-- Client whose listing is empty. -/
def clientEmpty : Ec2Client :=
  { create_egress_only_internet_gateway := fun _ _ => .error unusedErr
    delete_egress_only_internet_gateway := fun _ _ => .error unusedErr
    describe_egress_only_internet_gateways := .ok []
    describe_egress_only_internet_gateways_by_ids := fun _ _ => .ok [] }

/-- Client whose create returns an already-attached gateway. -/
def clientCreateAttached : Ec2Client :=
  { create_egress_only_internet_gateway := fun _ _ => .ok gwAttachedNew
    delete_egress_only_internet_gateway := fun _ _ => .error unusedErr
    describe_egress_only_internet_gateways := .ok []
    describe_egress_only_internet_gateways_by_ids := fun _ _ => .ok [] }

/-- Client whose create returns an attaching gateway that never reaches
the attached state while polled. -/
def clientNeverAttaches : Ec2Client :=
  { create_egress_only_internet_gateway := fun _ _ => .ok gwAttachingNew
    delete_egress_only_internet_gateway := fun _ _ => .error unusedErr
    describe_egress_only_internet_gateways := .ok []
    describe_egress_only_internet_gateways_by_ids := fun _ _ => .ok [gwAttachingNew] }

/-- Client whose create returns an attaching gateway that the poll first
observes as attached on its third attempt (index 2). -/
def clientAttachesAtTwo : Ec2Client :=
  { create_egress_only_internet_gateway := fun _ _ => .ok gwAttachingNew
    delete_egress_only_internet_gateway := fun _ _ => .error unusedErr
    describe_egress_only_internet_gateways := .ok []
    describe_egress_only_internet_gateways_by_ids := fun k _ =>
      if k < 2 then .ok [gwAttachingNew] else .ok [gwAttachedNew] }

/-- Client whose create and delete both raise the dry-run success error. -/
def clientDryRun : Ec2Client :=
  { create_egress_only_internet_gateway := fun _ _ => .error ⟨"dry", dryRunResponse⟩
    delete_egress_only_internet_gateway := fun _ _ => .error ⟨"dry", dryRunResponse⟩
    describe_egress_only_internet_gateways := .ok []
    describe_egress_only_internet_gateways_by_ids := fun _ _ => .ok [] }

/-- A boto3 connection whose every operation raises the dry-run success
error. -/
def connDryRun : String → List (String × Val) → Except ClientErr Val :=
  fun _ _ => .error ⟨"dry", dryRunResponse⟩

/-! ## Lemmas about the name-case transform -/

theorem isUpperAZ_lowerChar (c : Char) : isUpperAZ (lowerChar c) = false := by
  unfold lowerChar
  by_cases h : isUpperAZ c = true
  · rw [if_pos h]
    unfold isUpperAZ at h
    rw [Bool.and_eq_true, decide_eq_true_eq, decide_eq_true_eq] at h
    have hv : (c.toNat + 32).isValidChar := Or.inl (by omega)
    have hofnat : (Char.ofNat (c.toNat + 32)).toNat = c.toNat + 32 := by
      unfold Char.ofNat
      rw [dif_pos hv]
      rfl
    rw [Bool.eq_false_iff]
    intro hcontra
    unfold isUpperAZ at hcontra
    rw [Bool.and_eq_true, decide_eq_true_eq, decide_eq_true_eq, hofnat] at hcontra
    omega
  · rw [if_neg h]
    exact Bool.eq_false_iff.mpr h

theorem lowerChar_eq_self (c : Char) (h : isUpperAZ c = false) : lowerChar c = c := by
  unfold lowerChar
  rw [h]
  rfl

theorem sub1go_eq_self (l : List Char) :
    ∀ b : Bool, (∀ c ∈ l, isUpperAZ c = false) → sub1go b l = l := by
  induction l with
  | nil => intro b _; rfl
  | cons c rest ih =>
    intro b h
    rcases rest with _ | ⟨u, rest2⟩
    · rfl
    rcases rest2 with _ | ⟨l2, rest3⟩
    · rfl
    have hu : isUpperAZ u = false := h u (by simp)
    have htail : ∀ b' : Bool, sub1go b' (u :: l2 :: rest3) = u :: l2 :: rest3 :=
      fun b' => ih b' (fun x hx => h x (List.mem_cons_of_mem _ hx))
    rw [sub1go, hu]
    split_ifs <;> simp_all [htail]

theorem sub2_eq_self (l : List Char) (h : ∀ c ∈ l, isUpperAZ c = false) :
    sub2 l = l := by
  induction l with
  | nil => rfl
  | cons c rest ih =>
    rcases rest with _ | ⟨u, rest2⟩
    · rfl
    have hu : isUpperAZ u = false := h u (by simp)
    have htail : sub2 (u :: rest2) = u :: rest2 :=
      ih (fun x hx => h x (List.mem_cons_of_mem _ hx))
    rw [sub2, hu]
    simp [htail]

theorem map_lowerChar_eq_self (l : List Char) (h : ∀ c ∈ l, isUpperAZ c = false) :
    l.map lowerChar = l := by
  conv_rhs => rw [← List.map_id l]
  exact List.map_congr_left (fun a ha => lowerChar_eq_self a (h a ha))

/-! ## Lemmas about the create poll -/

theorem polledState_some_elim (client : Ec2Client) (gid : String) (k : Nat)
    (s : String) (h : polledState client gid k = some s) :
    ∃ gws g att,
      client.describe_egress_only_internet_gateways_by_ids k gid = Except.ok gws ∧
      gws.head? = some g ∧ g.Attachments.head? = some att ∧ att.State = s := by
  unfold polledState at h
  split at h
  · exact absurd h (by simp)
  · rename_i gws hdesc
    split at h
    · exact absurd h (by simp)
    · rename_i g hg
      split at h
      · exact absurd h (by simp)
      · rename_i att ha
        exact ⟨gws, g, att, hdesc, hg, ha, by simpa using h⟩

theorem cons_geom (p r : Nat) :
    p :: (List.range r).map (fun i => p * 2 * 2 ^ i) =
      (List.range (r + 1)).map (fun i => p * 2 ^ i) := by
  rw [List.range_succ_eq_map, List.map_cons, List.map_map]
  refine congrArg₂ List.cons ?_ ?_
  · simp
  · refine List.map_congr_left (fun i _ => ?_)
    simp only [Function.comp_apply, pow_succ]
    ring

theorem create_poll_exhaust (snake : Val → Val) (client : Ec2Client) (gid : String) :
    ∀ (r : Nat), ∀ (k p : Nat),
      (∀ i < r, ∃ s, polledState client gid (k + i) = some s ∧ s ≠ "attached") →
      create_poll snake client gid r p k =
        (.returnedNone, (List.range r).map (fun i => p * 2 ^ i)) := by
  intro r
  induction r with
  | zero => intro k p _; rfl
  | succ r ih =>
    intro k p h
    obtain ⟨s, hs, hne⟩ := h 0 (Nat.succ_pos r)
    rw [Nat.add_zero] at hs
    obtain ⟨gws, g, att, hdesc, hg, ha, hstate⟩ := polledState_some_elim _ _ _ _ hs
    have hattne : ¬(att.State = "attached") := by rw [hstate]; exact hne
    have hshift : ∀ i < r,
        ∃ s, polledState client gid (k + 1 + i) = some s ∧ s ≠ "attached" := by
      intro i hi
      have htmp := h (i + 1) (by omega)
      rwa [show k + (i + 1) = k + 1 + i by omega] at htmp
    have hrec := ih (k + 1) (p * 2) hshift
    rw [create_poll]
    simp only [hdesc, hg, ha, if_neg hattne, hrec]
    refine Prod.ext rfl ?_
    exact cons_geom p r

theorem create_poll_hit (snake : Val → Val) (client : Ec2Client) (gid : String) :
    ∀ (j : Nat), ∀ (r k p : Nat), j < r →
      polledState client gid (k + j) = some "attached" →
      (∀ i < j, ∃ s, polledState client gid (k + i) = some s ∧ s ≠ "attached") →
      create_poll snake client gid r p k =
        (.done [("changed", .vbool true), ("gateway_id", .vstr gid)],
         (List.range (j + 1)).map (fun i => p * 2 ^ i)) := by
  intro j
  induction j with
  | zero =>
    intro r k p hjr hhit _
    rcases r with _ | r
    · omega
    rw [Nat.add_zero] at hhit
    obtain ⟨gws, g, att, hdesc, hg, ha, hstate⟩ := polledState_some_elim _ _ _ _ hhit
    rw [create_poll]
    simp only [hdesc, hg, ha, if_pos hstate]
    refine Prod.ext rfl ?_
    exact cons_geom p 0
  | succ j ih =>
    intro r k p hjr hhit hpre
    rcases r with _ | r
    · omega
    obtain ⟨s, hs, hne⟩ := hpre 0 (Nat.succ_pos j)
    rw [Nat.add_zero] at hs
    obtain ⟨gws, g, att, hdesc, hg, ha, hstate⟩ := polledState_some_elim _ _ _ _ hs
    have hattne : ¬(att.State = "attached") := by rw [hstate]; exact hne
    have hhit2 : polledState client gid (k + 1 + j) = some "attached" := by
      rwa [show k + 1 + j = k + (j + 1) by omega]
    have hpre2 : ∀ i < j,
        ∃ s, polledState client gid (k + 1 + i) = some s ∧ s ≠ "attached" := by
      intro i hi
      have htmp := hpre (i + 1) (by omega)
      rwa [show k + (i + 1) = k + 1 + i by omega] at htmp
    have hrec := ih r (k + 1) (p * 2) (by omega) hhit2 hpre2
    rw [create_poll]
    simp only [hdesc, hg, ha, if_neg hattne, hrec]
    refine Prod.ext rfl ?_
    exact cons_geom p (j + 1)

/-! ## Claim theorems -/

/-- C8: the name-case transform maps the specified examples correctly,
including the acronym boundary case: `DescribeVpcs` to `describe_vpcs`,
`EgressOnlyInternetGatewayId` to `egress_only_internet_gateway_id`, and
`VPCId` to `vpc_id`. -/
theorem camel_to_snake_examples :
    camel_to_snake "DescribeVpcs" = "describe_vpcs" ∧
    camel_to_snake "EgressOnlyInternetGatewayId" = "egress_only_internet_gateway_id" ∧
    camel_to_snake "VPCId" = "vpc_id" :=
  ⟨by decide, by decide, by decide⟩

/-- C9: the name-case transform is idempotent: applying `camel_to_snake`
twice gives the same result as applying it once; in particular it is the
identity on its own output, hence on strings already in snake_case. -/
theorem camel_to_snake_idem (s : String) :
    camel_to_snake (camel_to_snake s) = camel_to_snake s := by
  unfold camel_to_snake sub1
  have h : ∀ c ∈ (sub2 (sub1go false s.data)).map lowerChar, isUpperAZ c = false := by
    intro c hc
    rcases List.mem_map.mp hc with ⟨a, _, rfl⟩
    exact isUpperAZ_lowerChar a
  rw [sub1go_eq_self _ false h, sub2_eq_self _ h, map_lowerChar_eq_self _ h]

/-- C2 (evaluation of the code at the failing input): botocore's
`operation_names` hold only the PascalCase form, so the snake_case form
of a valid operation is rejected by `validate_params` with an
`Invalid Operation Name` failure, while the PascalCase form passes and is
normalized by `camel_to_snake` to the snake_case SDK method name.  This
contradicts the module documentation, which promises that both forms are
accepted. -/
theorem snake_case_operation_name_rejected :
    validate_params sessEc2 "ec2" "describe_vpcs" [("DryRun", .vbool false)] =
      .error (.invalidOperation "describe_vpcs" "ec2") ∧
    validate_params sessEc2 "ec2" "DescribeVpcs" [("DryRun", .vbool false)] =
      .ok [("DryRun", .vbool false)] ∧
    camel_to_snake "DescribeVpcs" = "describe_vpcs" :=
  ⟨rfl, rfl, by decide⟩

/-- C1 (evaluation of the code at the failing input): `describe_eigws`
returns on the first listed gateway in both branches of its loop body, so
with a listing whose first gateway does not match `vpc-1` and whose
second gateway is attached to `vpc-1`, it returns `None` even though a
matching gateway is in the list. -/
theorem describe_eigws_first_entry_only :
    gwMatching ∈ gwsShadowed ∧
    gwMatching.Attachments.head? = some ⟨"attached", "vpc-1"⟩ ∧
    describe_eigws idVal clientShadowed "vpc-1" = .done none :=
  ⟨by decide, rfl, rfl⟩

/-- C3: reconcile is a no-op in the already-converged cases: with
desired state `present` and the lookup finding an existing identifier,
`main` exits with `changed=false` and that identifier and issues no
create or delete call; with desired state `absent` and the lookup finding
nothing, it exits with `changed=false` and issues no provider mutation
call. -/
theorem reconcile_noop (snake : Val → Val) (client : Ec2Client) (check_mode : Bool)
    (vpc_id gid : String) :
    (describe_eigws snake client vpc_id = .done (some gid) → gid ≠ "" →
      main_eigw snake client check_mode vpc_id "present" =
        (.done [("changed", .vbool false), ("gateway_id", .vstr gid)], [], [])) ∧
    (describe_eigws snake client vpc_id = .done none →
      main_eigw snake client check_mode vpc_id "absent" =
        (.done [("changed", .vbool false), ("gateway_id", .vnone)], [], [])) := by
  constructor
  · intro hdesc hne
    have hp : pyTruthyOptStr (some gid) = true := by simp [pyTruthyOptStr, hne]
    simp [main_eigw, hdesc, hp]
  · intro hdesc
    simp [main_eigw, hdesc, pyTruthyOptStr]

theorem reconcile_noop_witness :
    main_eigw idVal clientExisting false "vpc-1" "present" =
      (.done [("changed", .vbool false), ("gateway_id", .vstr "eigw-match")], [], []) ∧
    main_eigw idVal clientEmpty false "vpc-1" "absent" =
      (.done [("changed", .vbool false), ("gateway_id", .vnone)], [], []) :=
  ⟨(reconcile_noop idVal clientExisting false "vpc-1" "eigw-match").1 rfl (by decide),
   (reconcile_noop idVal clientEmpty false "vpc-1" "eigw-match").2 rfl⟩

/-- C6: with desired state `absent` and the lookup finding an existing
identifier, `main` issues a delete call for that identifier and, when the
provider's (non-dry-run) delete succeeds, exits with `changed=true`. -/
theorem reconcile_absent_deletes (snake : Val → Val) (client : Ec2Client)
    (vpc_id gid : String) (resp : DeleteResponse)
    (hdesc : describe_eigws snake client vpc_id = .done (some gid))
    (hne : gid ≠ "")
    (hdel : client.delete_egress_only_internet_gateway false gid = .ok resp)
    (hrc : resp.ReturnCode = true) :
    main_eigw snake client false vpc_id "absent" =
      (.done [("changed", .vbool true)], [.delete false gid], []) := by
  have hp : pyTruthyOptStr (some gid) = true := by simp [pyTruthyOptStr, hne]
  simp [main_eigw, hdesc, hp, delete_eigw, hdel, hrc]

theorem reconcile_absent_deletes_witness :
    main_eigw idVal clientExisting false "vpc-1" "absent" =
      (.done [("changed", .vbool true)], [.delete false "eigw-match"], []) :=
  reconcile_absent_deletes idVal clientExisting "vpc-1" "eigw-match" ⟨true⟩
    rfl (by decide) rfl rfl

/-- C5: a provider call raising a `ClientError` whose code is
`DryRunOperation` is treated as success: the generic invoker returns the
dict with only `changed=true`, and the reconciler's create and delete
return `changed=true` with a `None` gateway id, none of them failing. -/
theorem dry_run_error_is_success (snake : Val → Val) (client : Ec2Client)
    (conn : String → List (String × Val) → Except ClientErr Val)
    (check_mode : Bool) (operation_name vpc_id eigw_id : String)
    (args : List (String × Val)) (err cerr derr : ClientErr) :
    (conn operation_name args = .error err →
      isDryRunErr err.response = .ok true →
      call_boto3_operation snake conn operation_name args =
        .ok (.vdict [("changed", .vbool true)])) ∧
    (client.create_egress_only_internet_gateway check_mode vpc_id = .error cerr →
      isDryRunErr cerr.response = .ok true →
      create_eigw snake client check_mode vpc_id =
        (.done [("changed", .vbool true), ("gateway_id", .vnone)],
         [.create check_mode vpc_id], [])) ∧
    (client.delete_egress_only_internet_gateway check_mode eigw_id = .error derr →
      isDryRunErr derr.response = .ok true →
      delete_eigw snake client check_mode eigw_id =
        (.done [("changed", .vbool true), ("gateway_id", .vnone)],
         [.delete check_mode eigw_id], [])) := by
  refine ⟨fun h1 h2 => ?_, fun h1 h2 => ?_, fun h1 h2 => ?_⟩
  · simp [call_boto3_operation, h1, h2]
  · simp [create_eigw, h1, h2]
  · simp [delete_eigw, h1, h2]

theorem dry_run_error_is_success_witness :
    call_boto3_operation idVal connDryRun "describe_vpcs" [] =
      .ok (.vdict [("changed", .vbool true)]) ∧
    create_eigw idVal clientDryRun true "vpc-1" =
      (.done [("changed", .vbool true), ("gateway_id", .vnone)],
       [.create true "vpc-1"], []) ∧
    delete_eigw idVal clientDryRun true "eigw-1" =
      (.done [("changed", .vbool true), ("gateway_id", .vnone)],
       [.delete true "eigw-1"], []) :=
  ⟨(dry_run_error_is_success idVal clientDryRun connDryRun true "describe_vpcs"
      "vpc-1" "eigw-1" [] ⟨"dry", dryRunResponse⟩ ⟨"dry", dryRunResponse⟩
      ⟨"dry", dryRunResponse⟩).1 rfl rfl,
   (dry_run_error_is_success idVal clientDryRun connDryRun true "describe_vpcs"
      "vpc-1" "eigw-1" [] ⟨"dry", dryRunResponse⟩ ⟨"dry", dryRunResponse⟩
      ⟨"dry", dryRunResponse⟩).2.1 rfl rfl,
   (dry_run_error_is_success idVal clientDryRun connDryRun true "describe_vpcs"
      "vpc-1" "eigw-1" [] ⟨"dry", dryRunResponse⟩ ⟨"dry", dryRunResponse⟩
      ⟨"dry", dryRunResponse⟩).2.2 rfl rfl⟩

/-- C4: the create path is determined by the observed attachment state:
`attached` returns `changed=true` with the new identifier immediately and
sleeps never; `attaching` enters a poll of at most 5 attempts that sleeps
before each re-check with doubling durations 1, 2, 4, 8, 16, re-describes
the gateway by its identifier after each sleep, returns `changed=true`
with the identifier as soon as the observed state is `attached`, and
falls through returning Python `None` when all 5 attempts exhaust. -/
theorem create_observes_attachment (snake : Val → Val) (client : Ec2Client)
    (check_mode : Bool) (vpc_id : String) (gw : Gateway) (att : Attachment)
    (hcr : client.create_egress_only_internet_gateway check_mode vpc_id = .ok gw)
    (hatt : gw.Attachments.head? = some att) :
    (att.State = "attached" →
      create_eigw snake client check_mode vpc_id =
        (.done [("changed", .vbool true),
                ("gateway_id", .vstr gw.EgressOnlyInternetGatewayId)],
         [.create check_mode vpc_id], [])) ∧
    (att.State = "attaching" →
      (∀ k < 5, ∃ s, polledState client gw.EgressOnlyInternetGatewayId k = some s ∧
          s ≠ "attached") →
      create_eigw snake client check_mode vpc_id =
        (.returnedNone, [.create check_mode vpc_id], [1, 2, 4, 8, 16])) ∧
    (∀ j : Nat, att.State = "attaching" → j < 5 →
      polledState client gw.EgressOnlyInternetGatewayId j = some "attached" →
      (∀ i < j, ∃ s, polledState client gw.EgressOnlyInternetGatewayId i = some s ∧
          s ≠ "attached") →
      create_eigw snake client check_mode vpc_id =
        (.done [("changed", .vbool true),
                ("gateway_id", .vstr gw.EgressOnlyInternetGatewayId)],
         [.create check_mode vpc_id],
         (List.range (j + 1)).map (fun i => 2 ^ i))) := by
  refine ⟨fun h1 => ?_, fun h1 hfail => ?_, fun j h1 hj hhit hpre => ?_⟩
  · simp [create_eigw, hcr, hatt, h1]
  · have hrec := create_poll_exhaust snake client gw.EgressOnlyInternetGatewayId
      5 0 1 (by simpa using hfail)
    have hlist : (List.range 5).map (fun i => 1 * 2 ^ i) = [1, 2, 4, 8, 16] := by decide
    rw [hlist] at hrec
    have hne : ¬(att.State = "attached") := by rw [h1]; decide
    simp [create_eigw, hcr, hatt, if_neg hne, if_pos h1, hrec]
  · have hrec := create_poll_hit snake client gw.EgressOnlyInternetGatewayId
      j 5 0 1 hj (by simpa using hhit) (by simpa using hpre)
    have hlist : (List.range (j + 1)).map (fun i => 1 * 2 ^ i)
        = (List.range (j + 1)).map (fun i => 2 ^ i) :=
      List.map_congr_left (fun i _ => Nat.one_mul _)
    rw [hlist] at hrec
    have hne : ¬(att.State = "attached") := by rw [h1]; decide
    simp [create_eigw, hcr, hatt, if_neg hne, if_pos h1, hrec]

theorem create_observes_attachment_witness :
    create_eigw idVal clientCreateAttached false "vpc-1" =
      (.done [("changed", .vbool true), ("gateway_id", .vstr "eigw-new")],
       [.create false "vpc-1"], []) ∧
    create_eigw idVal clientNeverAttaches false "vpc-1" =
      (.returnedNone, [.create false "vpc-1"], [1, 2, 4, 8, 16]) ∧
    create_eigw idVal clientAttachesAtTwo false "vpc-1" =
      (.done [("changed", .vbool true), ("gateway_id", .vstr "eigw-new")],
       [.create false "vpc-1"], [1, 2, 4]) :=
  ⟨(create_observes_attachment idVal clientCreateAttached false "vpc-1"
      gwAttachedNew ⟨"attached", "vpc-1"⟩ rfl rfl).1 rfl,
   (create_observes_attachment idVal clientNeverAttaches false "vpc-1"
      gwAttachingNew ⟨"attaching", "vpc-1"⟩ rfl rfl).2.1 rfl
     (fun k _ => ⟨"attaching", rfl, by decide⟩),
   (create_observes_attachment idVal clientAttachesAtTwo false "vpc-1"
      gwAttachingNew ⟨"attaching", "vpc-1"⟩ rfl rfl).2.2 2 rfl (by omega) rfl
     (by intro i hi; interval_cases i <;> exact ⟨"attaching", rfl, by decide⟩)⟩

/-- C7: argument validation against the operation's input shape, stated
for runs where service and operation validation pass and the argument
dictionary carries the `DryRun` pseudo-argument the caller always sets.
Writing `args2` for the arguments after the undeclared-`DryRun` drop:
any key outside the shape's members fails with `InvalidArguments` naming
exactly the offending keys; otherwise any missing required member fails
with `MissingArguments` naming exactly the missing keys; otherwise
validation succeeds returning `args2` (so an undeclared `DryRun` is
silently dropped, never reported invalid). -/
theorem validate_params_exact_keys (session : BotoSession)
    (service operation_name : String) (args : List (String × Val))
    (members required : List String) (args2 : List (String × Val))
    (hs : service ∈ session.available_services)
    (hop : operation_name ∈ (session.get_service_model service).operation_names)
    (hmem : ((session.get_service_model service).operation_model operation_name).members
      = members)
    (hreq : ((session.get_service_model service).operation_model
        operation_name).required_members = required)
    (hdry : "DryRun" ∈ keysOf args)
    (hargs2 : dropUndeclaredDryRun members args = args2) :
    ((∃ k ∈ keysOf args2, k ∉ members) →
      ∃ bad, validate_params session service operation_name args =
          .error (.invalidArguments bad operation_name) ∧
        ∀ k, k ∈ bad ↔ (k ∈ keysOf args2 ∧ k ∉ members)) ∧
    ((∀ k ∈ keysOf args2, k ∈ members) →
      (∃ k ∈ required, k ∉ keysOf args2) →
      ∃ missing, validate_params session service operation_name args =
          .error (.missingArguments missing operation_name) ∧
        ∀ k, k ∈ missing ↔ (k ∈ required ∧ k ∉ keysOf args2)) ∧
    ((∀ k ∈ keysOf args2, k ∈ members) →
      (∀ k ∈ required, k ∈ keysOf args2) →
      validate_params session service operation_name args = .ok args2) := by
  have hs' : (service ∉ session.available_services) = False :=
    eq_false (not_not_intro hs)
  have hop' : (operation_name ∉ (session.get_service_model service).operation_names)
      = False := eq_false (not_not_intro hop)
  have hsplit : (if "DryRun" ∈ members then some args
                 else if "DryRun" ∈ keysOf args then
                   some (args.filter (fun kv => kv.1 ≠ "DryRun"))
                 else none) = some args2 := by
    rw [← hargs2]
    unfold dropUndeclaredDryRun
    by_cases hm : "DryRun" ∈ members
    · rw [if_pos hm, if_pos hm]
    · rw [if_neg hm, if_neg hm, if_pos hdry]
  have hval : validate_params session service operation_name args =
      (if (keysOf args2).filter (fun k => k ∉ members) ≠ [] then
         .error (.invalidArguments ((keysOf args2).filter (fun k => k ∉ members))
           operation_name)
       else if required.filter (fun k => k ∉ keysOf args2) ≠ [] then
         .error (.missingArguments (required.filter (fun k => k ∉ keysOf args2))
           operation_name)
       else .ok args2) := by
    simp only [validate_params, hmem, hreq, hs', hop', if_false, hsplit]
  refine ⟨?_, ?_, ?_⟩
  · rintro ⟨k, hk1, hk2⟩
    have hbad : (keysOf args2).filter (fun k => k ∉ members) ≠ [] :=
      List.ne_nil_of_mem (List.mem_filter.mpr ⟨hk1, by simpa using hk2⟩)
    refine ⟨(keysOf args2).filter (fun k => k ∉ members), ?_, ?_⟩
    · rw [hval, if_pos hbad]
    · intro k'
      simp [List.mem_filter]
  · intro hall hmissing
    have hbadnil : (keysOf args2).filter (fun k => k ∉ members) = [] := by
      rw [List.filter_eq_nil_iff]
      intro a ha
      simpa using hall a ha
    obtain ⟨k, hk1, hk2⟩ := hmissing
    have hmiss : required.filter (fun k => k ∉ keysOf args2) ≠ [] :=
      List.ne_nil_of_mem (List.mem_filter.mpr ⟨hk1, by simpa using hk2⟩)
    refine ⟨required.filter (fun k => k ∉ keysOf args2), ?_, ?_⟩
    · rw [hval, if_neg (not_not_intro hbadnil), if_pos hmiss]
    · intro k'
      simp [List.mem_filter]
  · intro hall hreqall
    have hbadnil : (keysOf args2).filter (fun k => k ∉ members) = [] := by
      rw [List.filter_eq_nil_iff]
      intro a ha
      simpa using hall a ha
    have hmissnil : required.filter (fun k => k ∉ keysOf args2) = [] := by
      rw [List.filter_eq_nil_iff]
      intro a ha
      simpa using hreqall a ha
    rw [hval, if_neg (not_not_intro hbadnil), if_neg (not_not_intro hmissnil)]

theorem validate_params_exact_keys_witness :
    (∃ bad, validate_params sessReq "ec2" "RunThings"
        [("DryRun", .vbool false), ("Needed", .vstr "x"), ("Bogus", .vint 1)] =
          .error (.invalidArguments bad "RunThings") ∧
      ∀ k, k ∈ bad ↔
        (k ∈ keysOf [("DryRun", Val.vbool false), ("Needed", Val.vstr "x"),
          ("Bogus", Val.vint 1)] ∧ k ∉ ["DryRun", "Needed", "Extra"])) ∧
    (∃ missing, validate_params sessReq "ec2" "RunThings" [("DryRun", .vbool false)] =
          .error (.missingArguments missing "RunThings") ∧
      ∀ k, k ∈ missing ↔
        (k ∈ ["Needed"] ∧ k ∉ keysOf [("DryRun", Val.vbool false)])) ∧
    validate_params sessReq "ec2" "RunThings"
        [("DryRun", .vbool false), ("Needed", .vstr "x")] =
      .ok [("DryRun", .vbool false), ("Needed", .vstr "x")] :=
  ⟨(validate_params_exact_keys sessReq "ec2" "RunThings"
      [("DryRun", .vbool false), ("Needed", .vstr "x"), ("Bogus", .vint 1)]
      ["DryRun", "Needed", "Extra"] ["Needed"]
      [("DryRun", .vbool false), ("Needed", .vstr "x"), ("Bogus", .vint 1)]
      (by decide) (by decide) rfl rfl (by decide) rfl).1
      ⟨"Bogus", by decide, by decide⟩,
   (validate_params_exact_keys sessReq "ec2" "RunThings" [("DryRun", .vbool false)]
      ["DryRun", "Needed", "Extra"] ["Needed"] [("DryRun", .vbool false)]
      (by decide) (by decide) rfl rfl (by decide) rfl).2.1
      (by decide) ⟨"Needed", by decide, by decide⟩,
   (validate_params_exact_keys sessReq "ec2" "RunThings"
      [("DryRun", .vbool false), ("Needed", .vstr "x")]
      ["DryRun", "Needed", "Extra"] ["Needed"]
      [("DryRun", .vbool false), ("Needed", .vstr "x")]
      (by decide) (by decide) rfl rfl (by decide) rfl).2.2
      (by decide)
      (by decide)⟩

/-- C10: every successful exit of the generic invoker reports
`changed=false` at top level: the result dictionary is initialized with
`changed=False` and never updated, whatever the invoked operation does,
even when the dry-run translation places `changed=true` inside the nested
response payload. -/
theorem generic_main_top_changed_false (snake filtX : Val → Val)
    (session : BotoSession)
    (conn : String → List (String × Val) → Except ClientErr Val)
    (check_mode : Bool) (service operation_name : String)
    (arguments : List (String × Val)) (d : List (String × Val))
    (h : generic_main snake filtX session conn check_mode service operation_name
      arguments = .exitJson d) :
    dictGet d "changed" = some (.vbool false) := by
  simp only [generic_main] at h
  split at h
  · exact absurd h (by simp)
  · split at h
    · exact absurd h (by simp)
    · injection h with hd
      rw [← hd]
      rfl

theorem generic_main_top_changed_false_witness :
    dictGet [("changed", Val.vbool false),
        ("response", Val.vdict [("changed", Val.vbool true)])] "changed" =
      some (Val.vbool false) :=
  generic_main_top_changed_false idVal idVal sessEc2 connDryRun false "ec2"
    "DescribeVpcs" []
    [("changed", Val.vbool false), ("response", Val.vdict [("changed", Val.vbool true)])]
    rfl
